import Mathlib

/-!
Shallow embedding of the fault-injection and call-graph orchestration engine
of the simulated multi-service backend: the fault scenario catalog and
injection decision procedure (backend/shared/error_injection.py), the
topology registry (backend/shared/service_names.py), the downstream invoker
and trace-context carrier, and the checkout workflow orchestrator
(backend/services/order-service/app.py).

The Python global uniform random stream is modelled as a function
`draws : Nat -> Rat` giving the successive values of `random.random()`;
each call to the generator consumes the next index.
-/

/-- One fault scenario of the catalog: a named failure definition with a
trigger rate, endpoint patterns and an error descriptor.  Mirrors one entry
of the `ERROR_SCENARIOS` dict in `backend/shared/error_injection.py`. -/
structure Scenario where
  name : String
  rate : ℚ
  endpoints : List String
  error_class : String
  message : String
  status_code : ℕ
deriving Repr, DecidableEq

/-- The catalog type: service name to the ordered list of its scenarios
(Python dicts preserve insertion order, so a list is faithful). -/
def Catalog : Type := List (String × List Scenario)

/-- Dict lookup `cfg[service_name]` on the catalog. -/
def configLookup (cfg : Catalog) (service_name : String) : Option (List Scenario) :=
  (List.find? (fun p => p.1 == service_name) cfg).map (fun p => p.2)

/-- Python `ep.replace("*", "")`: removes every asterisk of the pattern. -/
def stripStars (s : String) : String :=
  String.mk (s.data.filter (fun c => c ≠ '*'))

/-- The endpoint-match expression used inline by both `should_inject_error`
and `get_error_for_service`:
`"*" in endpoints or any(endpoint.startswith(ep.replace("*", "")) for ep in endpoints)`. -/
def endpointMatches (endpoint : String) (endpoints : List String) : Bool :=
  endpoints.contains "*" ||
    endpoints.any (fun ep => List.isPrefixOf (stripStars ep).data endpoint.data)

/-- The loop of `get_error_for_service`: walk the matching scenarios in
declared order, drawing `draws i` for the i-th matching scenario; return the
descriptor of the first scenario whose draw is below its rate. -/
def get_error_go (draws : ℕ → ℚ) : ℕ → List Scenario → Option (String × String × ℕ)
  | _, [] => none
  | i, sc :: rest =>
    if draws i < sc.rate then some (sc.error_class, sc.message, sc.status_code)
    else get_error_go draws (i + 1) rest

/-- `get_error_for_service(service_name, endpoint)` from
`backend/shared/error_injection.py`, with the catalog and the random stream
passed explicitly. -/
def get_error_for_service (cfg : Catalog) (draws : ℕ → ℚ)
    (service_name endpoint : String) : Option (String × String × ℕ) :=
  match configLookup cfg service_name with
  | none => none
  | some scenarios =>
    let matching := scenarios.filter (fun sc => endpointMatches endpoint sc.endpoints)
    if matching.isEmpty then none
    else get_error_go draws 0 matching

/-- The loop of `should_inject_error`: iterate all scenarios, drawing only
for those whose endpoints match; a draw below the rate returns `true`. -/
def should_inject_go (draws : ℕ → ℚ) (endpoint : String) : ℕ → List Scenario → Bool
  | _, [] => false
  | i, sc :: rest =>
    if endpointMatches endpoint sc.endpoints then
      if draws i < sc.rate then true else should_inject_go draws endpoint (i + 1) rest
    else should_inject_go draws endpoint i rest

/-- `should_inject_error(service_name, endpoint)` from
`backend/shared/error_injection.py`. -/
def should_inject_error (cfg : Catalog) (draws : ℕ → ℚ)
    (service_name endpoint : String) : Bool :=
  match configLookup cfg service_name with
  | none => false
  | some scenarios => should_inject_go draws endpoint 0 scenarios

/-- The literal `ERROR_SCENARIOS` catalog of
`backend/shared/error_injection.py`, in declaration order.  The Python rate
literals are exact decimals; `mkRat n 100` denotes the decimal `0.0n`
(e.g. `mkRat 6 100 = 0.06`), kept in this form so the kernel can evaluate
rate comparisons. -/
def ERROR_SCENARIOS : Catalog :=
  [ ("api-gateway",
      [ ⟨"rate_limit_exceeded", mkRat 2 100, ["/api/*"], "RateLimitError",
          "Rate limit exceeded. Please retry after 60 seconds.", 429⟩,
        ⟨"service_unavailable", mkRat 1 100, ["*"], "ServiceUnavailableError",
          "Downstream service temporarily unavailable", 503⟩ ]),
    ("auth-service",
      [ ⟨"invalid_token", mkRat 5 100, ["/validate", "/refresh"], "AuthenticationError",
          "Invalid or expired authentication token", 401⟩,
        ⟨"account_locked", mkRat 2 100, ["/login"], "AccountLockedException",
          "Account locked due to too many failed attempts", 403⟩ ]),
    ("user-service",
      [ ⟨"user_not_found", mkRat 3 100, ["/users/*", "/profile"], "UserNotFoundError",
          "User not found in database", 404⟩,
        ⟨"database_timeout", mkRat 1 100, ["*"], "DatabaseTimeoutError",
          "Database query timed out after 30 seconds", 504⟩ ]),
    ("order-service",
      [ ⟨"order_validation_failed", mkRat 4 100, ["/orders", "/checkout"], "OrderValidationError",
          "Order validation failed: invalid items in cart", 400⟩,
        ⟨"inventory_sync_error", mkRat 2 100, ["/checkout"], "InventorySyncError",
          "Failed to sync with inventory service", 500⟩ ]),
    ("payment-service",
      [ ⟨"payment_declined", mkRat 6 100, ["/process", "/charge"], "PaymentDeclinedException",
          "Payment declined by card issuer", 402⟩,
        ⟨"fraud_detected", mkRat 2 100, ["/process"], "FraudDetectionError",
          "Transaction flagged by fraud detection system", 403⟩,
        ⟨"gateway_timeout", mkRat 3 100, ["*"], "PaymentGatewayTimeoutError",
          "Payment gateway did not respond in time", 504⟩ ]),
    ("inventory-service",
      [ ⟨"out_of_stock", mkRat 8 100, ["/reserve", "/check"], "OutOfStockError",
          "Requested item is out of stock", 409⟩,
        ⟨"warehouse_unreachable", mkRat 2 100, ["*"], "WarehouseConnectionError",
          "Unable to connect to warehouse management system", 503⟩ ]),
    ("notification-service",
      [ ⟨"email_delivery_failed", mkRat 4 100, ["/send", "/email"], "EmailDeliveryError",
          "Failed to deliver email: SMTP connection refused", 502⟩,
        ⟨"template_not_found", mkRat 1 100, ["/send"], "TemplateNotFoundError",
          "Email template not found", 404⟩ ]),
    ("analytics-service",
      [ ⟨"event_processing_failed", mkRat 2 100, ["/track", "/events"], "EventProcessingError",
          "Failed to process analytics event", 500⟩,
        ⟨"queue_full", mkRat 1 100, ["*"], "QueueFullError",
          "Event queue is full, events may be dropped", 503⟩ ]),
    ("search-service",
      [ ⟨"search_timeout", mkRat 3 100, ["/search", "/query"], "SearchTimeoutError",
          "Search query timed out", 504⟩,
        ⟨"index_not_ready", mkRat 1 100, ["*"], "IndexNotReadyError",
          "Search index is currently being rebuilt", 503⟩ ]) ]

/-- Look up one scenario of the catalog by service and scenario name. -/
def findScenario (cfg : Catalog) (service_name scenario_name : String) : Option Scenario :=
  (configLookup cfg service_name).bind
    (fun l => l.find? (fun sc => sc.name == scenario_name))

/-- Reference endpoint-pattern match, as the specification words it: a
pattern matches a path iff it is `*`, or it equals the path exactly, or it
ends in `*` and its stem (the trailing `*` stripped) is a prefix of the path. -/
def patternMatchesSpec (pat path : String) : Bool :=
  pat == "*" || pat == path ||
    (pat.data.getLast? == some '*' &&
      List.isPrefixOf pat.data.dropLast path.data)

/-- Reference match of a pattern set against a path, per the specification. -/
def endpointMatchesSpec (endpoint : String) (endpoints : List String) : Bool :=
  endpoints.any (fun ep => patternMatchesSpec ep endpoint)

/-- The matching-scenario list the engine builds for one (service, endpoint)
pair: the scenarios registered for the service (none when the service is
absent), filtered to those whose endpoint patterns match. -/
def matchingScenarios (cfg : Catalog) (service_name endpoint : String) : List Scenario :=
  ((configLookup cfg service_name).getD []).filter
    (fun sc => endpointMatches endpoint sc.endpoints)

/-- `SERVICE_REGISTRY` of `backend/shared/service_names.py`: the port of each service and declared downstream dependencies. -/
def SERVICE_REGISTRY : List (String × ℕ × List String) :=
  [ ("api-gateway", 5000, ["auth-service", "user-service", "order-service", "search-service"]),
    ("auth-service", 5001, ["analytics-service"]),
    ("user-service", 5002, ["analytics-service", "notification-service"]),
    ("order-service", 5003, ["payment-service", "inventory-service", "notification-service"]),
    ("payment-service", 5004, ["notification-service"]),
    ("inventory-service", 5005, ["notification-service"]),
    ("notification-service", 5006, []),
    ("analytics-service", 5007, []),
    ("search-service", 5008, ["inventory-service"]) ]

/-- Dict lookup on the service registry. -/
def registryLookup (service_name : String) : Option (ℕ × List String) :=
  (SERVICE_REGISTRY.find? (fun p => p.1 == service_name)).map (fun p => p.2)

/-- `get_service_url(service_name, use_docker)`: raises
`ValueError(f"Unknown service: {service_name}")` when the name is absent,
else builds the docker or localhost URL from the registered port. -/
def get_service_url (use_docker : Bool) (service_name : String) : Except String String :=
  match registryLookup service_name with
  | none => Except.error ("Unknown service: " ++ service_name)
  | some (port, _) =>
    if use_docker then Except.ok ("http://" ++ service_name ++ ":" ++ toString port)
    else Except.ok ("http://localhost:" ++ toString port)

/-- The JSON body fields the engine reads or writes.  The global
error handler answers an uncaught exception with
`{success: False, error: error_type, message: str(error), service: name}`;
success bodies carry `success: True` and payload fields abstracted away. -/
structure JsonBody where
  success : Option Bool
  error : Option String
  message : Option String
  service : Option String
deriving Repr, DecidableEq

/-- Wire contract of section 6 of the design: a body represents an injected
error when it carries the `error` and `message` fields and `success` false. -/
def isInjectedErrorBody (b : JsonBody) : Bool :=
  b.success == some false && b.error.isSome && b.message.isSome

/-- What the HTTP library yields for one outbound request: either the callee
responded (any status code, with a JSON body) or a
`requests.exceptions.RequestException` was raised (timeout, connection
error), identified here by its class name. -/
inductive HttpResult where
  | response (status : ℕ) (body : JsonBody)
  | requestException (cls : String)
deriving Repr, DecidableEq

/-- A Python exception as the Flask global error handler sees it:
`InjectedError(message, error_class, status_code)`, a transport
`RequestException`, or the `ValueError` raised by `get_service_url`. -/
inductive PyError where
  | injected (error_class message : String) (status_code : ℕ)
  | transport (cls : String)
  | valueError (msg : String)
deriving Repr, DecidableEq

/-- `call_service(service_name, path, method, data)` as defined identically
in the order/payment/inventory service apps: resolve the URL (for an unknown service the `ValueError` propagates uncaught), perform the request, and return
`resp.json()` for every response regardless of status; a `RequestException`
is recorded and re-raised. -/
def call_service (use_docker : Bool) (service_name path : String)
    (result : HttpResult) : Except PyError JsonBody :=
  match get_service_url use_docker service_name with
  | Except.error msg => Except.error (PyError.valueError msg)
  | Except.ok _url =>
    match result with
    | HttpResult.response _status body => Except.ok body
    | HttpResult.requestException cls => Except.error (PyError.transport cls)

/-- `get_trace_headers()`: copies the `traceparent` and `tracestate` values
from the inbound request headers when present, in that order. -/
def get_trace_headers (inbound : String → Option String) : List (String × String) :=
  (match inbound "traceparent" with
    | some v => [("traceparent", v)]
    | none => []) ++
  (match inbound "tracestate" with
    | some v => [("tracestate", v)]
    | none => [])

/-- The outbound header dict as `call_service` builds it: the copied trace
headers plus `Content-Type: application/json`. -/
def outboundHeaders (inbound : String → Option String) : List (String × String) :=
  get_trace_headers inbound ++ [("Content-Type", "application/json")]

/-- Dictionary lookup on a header list. -/
def headerLookup (headers : List (String × String)) (k : String) : Option String :=
  (headers.find? (fun p => p.1 == k)).map (fun p => p.2)

/-- `maybe_raise_error(service_name, endpoint)`: raises
`InjectedError(message, error_class, status_code)` when the decision engine
picks an error, else does nothing. -/
def maybe_raise_error (cfg : Catalog) (draws : ℕ → ℚ)
    (service_name endpoint : String) : Except PyError Unit :=
  match get_error_for_service cfg draws service_name endpoint with
  | some (error_class, message, status_code) =>
    Except.error (PyError.injected error_class message status_code)
  | none => Except.ok ()

/-- The three downstream steps of the checkout flow, in declared order. -/
inductive Step where
  | reserveInventory
  | processPayment
  | sendNotification
deriving Repr, DecidableEq

/-- The downstream behaviour the environment supplies to one checkout
request: what inventory-service, payment-service and notification-service
would answer when (and if) called. -/
structure CheckoutEnv where
  inventoryResult : HttpResult
  paymentResult : HttpResult
  notifyResult : HttpResult
deriving Repr, DecidableEq

/-- The body of the `checkout()` handler of
`backend/services/order-service/app.py`: consult the injection engine, then
reserve inventory, process payment, send the confirmation.  The first two
steps re-raise any exception of `call_service`; the notification step
catches every exception and only logs it.  Returns the list of steps entered
and either success or the propagated exception. -/
def checkout_run (cfg : Catalog) (draws : ℕ → ℚ) (use_docker : Bool)
    (env : CheckoutEnv) : List Step × Except PyError Unit :=
  match maybe_raise_error cfg draws "order-service" "/checkout" with
  | Except.error e => ([], Except.error e)
  | Except.ok _ =>
    match call_service use_docker "inventory-service" "/reserve" env.inventoryResult with
    | Except.error e => ([Step.reserveInventory], Except.error e)
    | Except.ok _inventory_result =>
      match call_service use_docker "payment-service" "/process" env.paymentResult with
      | Except.error e => ([Step.reserveInventory, Step.processPayment], Except.error e)
      | Except.ok _payment_result =>
        match call_service use_docker "notification-service" "/send" env.notifyResult with
        | _ =>
          ([Step.reserveInventory, Step.processPayment, Step.sendNotification],
            Except.ok ())

/-- The observable part of a Flask JSON response: HTTP status, the `success`
field, `order.status` when an order is returned, and the `error` field of
the failure body of the global error handler. -/
structure HttpResponse where
  status : ℕ
  success : Bool
  order_status : Option String
  error : Option String
deriving Repr, DecidableEq

/-- The expression `getattr(error, "status_code", 500)` of the global error handler. -/
def pyStatusCode : PyError → ℕ
  | PyError.injected _ _ status_code => status_code
  | PyError.transport _ => 500
  | PyError.valueError _ => 500

/-- The expression `getattr(error, "error_type", type(error).__name__)` of the handler. -/
def pyErrorType : PyError → String
  | PyError.injected error_class _ _ => error_class
  | PyError.transport cls => cls
  | PyError.valueError _ => "ValueError"

/-- The `/checkout` endpoint with the global error handler applied: success
yields HTTP 200 with order status `completed`; an uncaught exception yields
the failure body of the handler with the status code of the exception. -/
def checkout_handler (cfg : Catalog) (draws : ℕ → ℚ) (use_docker : Bool)
    (env : CheckoutEnv) : List Step × HttpResponse :=
  match checkout_run cfg draws use_docker env with
  | (steps, Except.ok _) => (steps, ⟨200, true, some "completed", none⟩)
  | (steps, Except.error e) =>
    (steps, ⟨pyStatusCode e, false, none, some (pyErrorType e)⟩)

/-- The JSON failure body inventory-service answers for its injected
`out_of_stock` scenario (its global error handler applied to the raised
`InjectedError`). -/
def oosBody : JsonBody :=
  ⟨some false, some "OutOfStockError", some "Requested item is out of stock",
    some "inventory-service"⟩

/-- A plain success body, as payment-service answers on the happy path. -/
def paymentOkBody : JsonBody := ⟨some true, none, none, some "payment-service"⟩

/-- A plain success body, as notification-service answers on the happy path. -/
def notifyOkBody : JsonBody := ⟨some true, none, none, some "notification-service"⟩

/-- First scenario of the two-scenario catalog used to exercise the
first-match-wins ordering at trigger probability 1. -/
def orderingScenarioA : Scenario := ⟨"always_a", 1, ["*"], "ErrorA", "message a", 500⟩

/-- Second scenario of the two-scenario ordering catalog. -/
def orderingScenarioB : Scenario := ⟨"always_b", 1, ["*"], "ErrorB", "message b", 501⟩

/-- A catalog holding one service with the two certain scenarios above. -/
def orderingCatalog : Catalog := [("svc-a", [orderingScenarioA, orderingScenarioB])]

/-- The loop of `should_inject_error` over a scenario list equals, draw for
draw, the loop of `get_error_for_service` over the pre-filtered matching
list: a non-matching scenario consumes no draw, so both walks consume the
k-th draw at the k-th matching scenario. -/
lemma should_inject_go_eq_isSome (draws : ℕ → ℚ) (endpoint : String) :
    ∀ (l : List Scenario) (i : ℕ),
      should_inject_go draws endpoint i l =
        (get_error_go draws i
          (l.filter (fun sc => endpointMatches endpoint sc.endpoints))).isSome
  | [], i => rfl
  | sc :: rest, i => by
    by_cases h : endpointMatches endpoint sc.endpoints
    · by_cases hd : draws i < sc.rate
      · simp [should_inject_go, get_error_go, List.filter_cons, h, hd]
      · simp [should_inject_go, get_error_go, List.filter_cons, h, hd,
          should_inject_go_eq_isSome draws endpoint rest (i + 1)]
    · simp [should_inject_go, List.filter_cons, h,
        should_inject_go_eq_isSome draws endpoint rest i]

/-- `get_error_for_service` equals the bare first-fire walk over the
matching-scenario list (the emptiness test of the source is redundant, since
the walk of an empty list already yields `none`). -/
lemma get_error_for_service_eq_go (cfg : Catalog) (draws : ℕ → ℚ)
    (service_name endpoint : String) :
    get_error_for_service cfg draws service_name endpoint =
      get_error_go draws 0 (matchingScenarios cfg service_name endpoint) := by
  unfold get_error_for_service matchingScenarios
  cases h : configLookup cfg service_name with
  | none => simp [h, get_error_go]
  | some scenarios =>
    simp only [h, Option.getD_some]
    by_cases hm : (scenarios.filter (fun sc => endpointMatches endpoint sc.endpoints)).isEmpty
    · rw [List.isEmpty_iff] at hm
      simp [hm, get_error_go]
    · simp [hm]

/-- C10: for every (service, endpoint) pair and every fixed draw stream,
`should_inject_error` returns `true` iff `get_error_for_service` returns a
non-`none` error triple — the boolean fast path and the descriptor path
consume draws for the same matching scenarios in the same order, so they
agree on every input. -/
theorem should_inject_iff_get_error (cfg : Catalog) (draws : ℕ → ℚ)
    (service_name endpoint : String) :
    should_inject_error cfg draws service_name endpoint =
      (get_error_for_service cfg draws service_name endpoint).isSome := by
  rw [get_error_for_service_eq_go]
  unfold should_inject_error matchingScenarios
  cases h : configLookup cfg service_name with
  | none => simp [h, get_error_go]
  | some scenarios =>
    simp only [h, Option.getD_some]
    exact should_inject_go_eq_isSome draws endpoint scenarios 0

/-- Characterisation of the first-fire walk: it returns `some d` exactly
when some k-th scenario of the list is the first whose draw is strictly
below its rate, and `d` is the descriptor of that scenario. -/
lemma get_error_go_eq_some_iff (draws : ℕ → ℚ) :
    ∀ (l : List Scenario) (i : ℕ) (d : String × String × ℕ),
      get_error_go draws i l = some d ↔
        ∃ k sc, l[k]? = some sc ∧ draws (i + k) < sc.rate ∧
          (∀ j, j < k → ∀ sc', l[j]? = some sc' → ¬ draws (i + j) < sc'.rate) ∧
          d = (sc.error_class, sc.message, sc.status_code)
  | [], i, d => by simp [get_error_go]
  | sc :: rest, i, d => by
    by_cases h : draws i < sc.rate
    · simp only [get_error_go, if_pos h]
      constructor
      · intro hd
        refine ⟨0, sc, by simp, by simpa using h, by omega, ?_⟩
        exact (Option.some_inj.mp hd).symm
      · rintro ⟨k, sc', hk, hdr, hprev, hd⟩
        cases k with
        | zero =>
          obtain rfl : sc = sc' := by simpa using hk
          exact congrArg some hd.symm
        | succ k' =>
          exact absurd (by simpa using h)
            (by simpa using hprev 0 (Nat.succ_pos k') sc (by simp))
    · simp only [get_error_go, if_neg h]
      rw [get_error_go_eq_some_iff draws rest (i + 1) d]
      constructor
      · rintro ⟨k, sc', hk, hdr, hprev, hd⟩
        refine ⟨k + 1, sc', by simpa using hk, ?_, ?_, hd⟩
        · have he : i + (k + 1) = i + 1 + k := by omega
          rw [he]; exact hdr
        · intro j hj sc2 hsc2
          cases j with
          | zero =>
            obtain rfl : sc = sc2 := by simpa using hsc2
            simpa using h
          | succ j' =>
            have he : i + (j' + 1) = i + 1 + j' := by omega
            rw [he]
            exact hprev j' (by omega) sc2 (by simpa using hsc2)
      · rintro ⟨k, sc', hk, hdr, hprev, hd⟩
        cases k with
        | zero =>
          obtain rfl : sc = sc' := by simpa using hk
          exact absurd (by simpa using hdr) h
        | succ k' =>
          refine ⟨k', sc', by simpa using hk, ?_, ?_, hd⟩
          · have he : i + 1 + k' = i + (k' + 1) := by omega
            rw [he]; exact hdr
          · intro j hj sc2 hsc2
            have he : i + 1 + j = i + (j + 1) := by omega
            rw [he]
            exact hprev (j + 1) (by omega) sc2 (by simpa using hsc2)

/-- The docker URL `get_service_url` builds for inventory-service. -/
lemma url_inventory : get_service_url true "inventory-service" =
    Except.ok "http://inventory-service:5005" := rfl

/-- The docker URL `get_service_url` builds for payment-service. -/
lemma url_payment : get_service_url true "payment-service" =
    Except.ok "http://payment-service:5004" := rfl

/-- The docker URL `get_service_url` builds for notification-service. -/
lemma url_notification : get_service_url true "notification-service" =
    Except.ok "http://notification-service:5006" := rfl

/-- C4: the injection decision engine inspects the matching scenarios of a
(service, endpoint) pair in declared order, consumes one draw per matching
scenario, and returns the descriptor of the first scenario whose draw is
strictly below its trigger probability, never evaluating a later one; in
consequence, when the matching list is two scenarios of probability 1 and
every draw lies in [0,1), the first declared scenario always wins. -/
theorem get_error_first_match (cfg : Catalog) (draws : ℕ → ℚ)
    (service_name endpoint : String) :
    (∀ d, get_error_for_service cfg draws service_name endpoint = some d ↔
      ∃ k sc, (matchingScenarios cfg service_name endpoint)[k]? = some sc ∧
        draws k < sc.rate ∧
        (∀ j, j < k → ∀ sc',
          (matchingScenarios cfg service_name endpoint)[j]? = some sc' →
          ¬ draws j < sc'.rate) ∧
        d = (sc.error_class, sc.message, sc.status_code)) ∧
    (∀ s1 s2, matchingScenarios cfg service_name endpoint = [s1, s2] →
      s1.rate = 1 → s2.rate = 1 → (∀ i, 0 ≤ draws i ∧ draws i < 1) →
      get_error_for_service cfg draws service_name endpoint =
        some (s1.error_class, s1.message, s1.status_code)) := by
  constructor
  · intro d
    rw [get_error_for_service_eq_go]
    simpa using
      get_error_go_eq_some_iff draws (matchingScenarios cfg service_name endpoint) 0 d
  · intro s1 s2 hm h1 h2 hd
    rw [get_error_for_service_eq_go, hm]
    have hlt : draws 0 < s1.rate := by rw [h1]; exact (hd 0).2
    simp [get_error_go, hlt]

/-- Witness for C4: on a catalog with two certain scenarios for one service,
with every draw 1/2, the engine returns the first declared descriptor. -/
theorem get_error_first_match_witness :
    matchingScenarios orderingCatalog "svc-a" "/x" = [orderingScenarioA, orderingScenarioB] ∧
    get_error_for_service orderingCatalog (fun _ => mkRat 1 2) "svc-a" "/x" =
      some ("ErrorA", "message a", 500) := by
  refine ⟨by decide, ?_⟩
  exact (get_error_first_match orderingCatalog (fun _ => mkRat 1 2) "svc-a" "/x").2
    orderingScenarioA orderingScenarioB (by decide) rfl rfl
    (fun i => ⟨by decide, by decide⟩)

/-- C8: the injection decision procedure is a total function of its inputs
(the model returns a value for every service, endpoint and draw stream — it
raises nothing), and for a service with zero configured scenarios — absent
from the catalog, or mapped to an empty list — it returns `none`. -/
theorem evaluate_no_config_no_injection (cfg : Catalog) (draws : ℕ → ℚ)
    (service_name endpoint : String) :
    (configLookup cfg service_name = none →
      get_error_for_service cfg draws service_name endpoint = none) ∧
    (configLookup cfg service_name = some [] →
      get_error_for_service cfg draws service_name endpoint = none) := by
  constructor
  · intro h; simp [get_error_for_service, h]
  · intro h; simp [get_error_for_service, h]

/-- Witness for C8: cart-service has no configured scenarios, and the
engine returns `none` for it. -/
theorem evaluate_no_config_no_injection_witness :
    configLookup ERROR_SCENARIOS "cart-service" = none ∧
    get_error_for_service ERROR_SCENARIOS (fun _ => 0) "cart-service" "/checkout" = none := by
  refine ⟨by decide, ?_⟩
  exact (evaluate_no_config_no_injection ERROR_SCENARIOS (fun _ => 0)
    "cart-service" "/checkout").1 (by decide)

/-- Counterexample to C3: the engine matches pattern `/validate` (an exact
pattern with no `*`) against the distinct path `/validate2`, because the
source tests `endpoint.startswith(pattern)` after stripping asterisks; the
reference predicate of the specification rejects that pair. -/
theorem endpoint_match_spec_counterexample :
    endpointMatches "/validate2" ["/validate"] = true ∧
    endpointMatchesSpec "/validate2" ["/validate"] = false ∧
    ("/validate" : String) ≠ "/validate2" ∧
    ("/validate" : String).data.contains '*' = false := by decide

/-- C3 as amended: the matching predicate of the engine treats every
pattern as a prefix pattern — a pattern matches a path iff the pattern with
all `*` removed is a prefix of the path (so `*` matches everything and the
set-level wildcard test of the source is redundant); the `/api/*` spec
examples still hold, but an exact pattern matches every extension of
itself, not only the identical path. -/
theorem endpoint_match_amended :
    (∀ endpoint pats, endpointMatches endpoint pats =
      pats.any (fun ep => List.isPrefixOf (stripStars ep).data endpoint.data)) ∧
    endpointMatches "/api/login" ["/api/*"] = true ∧
    endpointMatches "/api/users/42" ["/api/*"] = true ∧
    endpointMatches "/health" ["/api/*"] = false := by
  refine ⟨?_, by decide, by decide, by decide⟩
  intro endpoint pats
  unfold endpointMatches
  cases hc : pats.contains "*" with
  | true =>
    have hmem : "*" ∈ pats := by simpa using hc
    have hstar : (stripStars "*").data = ([] : List Char) := by decide
    have hany : pats.any
        (fun ep => List.isPrefixOf (stripStars ep).data endpoint.data) = true := by
      refine List.any_eq_true.mpr ⟨"*", hmem, ?_⟩
      rw [hstar]; simp
    rw [hany]; rfl
  | false => rfl

/-- C5: the trace-context round trip is lossless and idempotent — the
outbound headers carry the inbound `traceparent` and `tracestate` values
unchanged (absent keys stay absent), and rebuilding outbound headers from a
hop that received them reproduces them identically. -/
theorem trace_roundtrip (inbound : String → Option String) :
    headerLookup (outboundHeaders inbound) "traceparent" = inbound "traceparent" ∧
    headerLookup (outboundHeaders inbound) "tracestate" = inbound "tracestate" ∧
    outboundHeaders (headerLookup (outboundHeaders inbound)) = outboundHeaders inbound := by
  cases h1 : inbound "traceparent" <;> cases h2 : inbound "tracestate" <;>
    simp [outboundHeaders, get_trace_headers, headerLookup, h1, h2, List.find?]

/-- C7: for a service name absent from the registry, `get_service_url`
fails with the unknown-service `ValueError`, and `call_service` to that
name fails with the same error for every possible network behaviour — the
failure happens before the request is issued. -/
theorem unknown_service_fails_fast (use_docker : Bool) (service_name path : String)
    (result : HttpResult) (h : registryLookup service_name = none) :
    get_service_url use_docker service_name =
      Except.error ("Unknown service: " ++ service_name) ∧
    call_service use_docker service_name path result =
      Except.error (PyError.valueError ("Unknown service: " ++ service_name)) := by
  have hg : get_service_url use_docker service_name =
      Except.error ("Unknown service: " ++ service_name) := by
    simp [get_service_url, h]
  exact ⟨hg, by simp [call_service, hg]⟩

/-- Witness for C7: cache-layer is a virtual name outside the registry, and
a call to it fails with the unknown-service error even though the modelled
network would have answered 200. -/
theorem unknown_service_fails_fast_witness :
    registryLookup "cache-layer" = none ∧
    call_service true "cache-layer" "/items" (HttpResult.response 200 notifyOkBody) =
      Except.error (PyError.valueError ("Unknown service: " ++ "cache-layer")) := by
  refine ⟨by decide, ?_⟩
  exact (unknown_service_fails_fast true "cache-layer" "/items"
    (HttpResult.response 200 notifyOkBody) (by decide)).2

/-- Counterexample to C2: a 409 response whose body encodes an injected
error is returned by `call_service` as `Except.ok` with the decoded body —
exactly as a 200 response is — so a non-2xx injected error is not
classified apart from success. -/
theorem call_service_no_status_classification_counterexample :
    isInjectedErrorBody oosBody = true ∧
    ¬ (200 ≤ 409 ∧ 409 < 300) ∧
    call_service true "inventory-service" "/reserve" (HttpResult.response 409 oosBody) =
      Except.ok oosBody ∧
    call_service true "inventory-service" "/reserve" (HttpResult.response 200 notifyOkBody) =
      Except.ok notifyOkBody :=
  ⟨by decide, by decide, rfl, rfl⟩

/-- C2 as amended: `call_service` classifies only transport-level failures —
every HTTP response, whatever its status code, is decoded with `resp.json()`
and returned as the ordinary payload, while a raised `RequestException` is
recorded and re-raised; no status-based injected-failure classification
exists in the invoker. -/
theorem call_service_amended (use_docker : Bool) (service_name path url : String)
    (h : get_service_url use_docker service_name = Except.ok url) :
    (∀ status body,
      call_service use_docker service_name path (HttpResult.response status body) =
        Except.ok body) ∧
    (∀ cls,
      call_service use_docker service_name path (HttpResult.requestException cls) =
        Except.error (PyError.transport cls)) := by
  constructor
  · intro status body; simp [call_service, h]
  · intro cls; simp [call_service, h]

/-- Witness for C2 as amended: payment-service resolves, a 402 error body
comes back as the ordinary payload, and a timeout is re-raised. -/
theorem call_service_amended_witness :
    get_service_url true "payment-service" = Except.ok "http://payment-service:5004" ∧
    call_service true "payment-service" "/process" (HttpResult.response 402 oosBody) =
      Except.ok oosBody ∧
    call_service true "payment-service" "/process" (HttpResult.requestException "Timeout") =
      Except.error (PyError.transport "Timeout") := by
  refine ⟨rfl, ?_, ?_⟩
  · exact (call_service_amended true "payment-service" "/process"
      "http://payment-service:5004" rfl).1 402 oosBody
  · exact (call_service_amended true "payment-service" "/process"
      "http://payment-service:5004" rfl).2 "Timeout"

/-- Counterexample to C1: inventory-service answers `/reserve` with its
injected out-of-stock failure (HTTP 409, the configured status code of the
scenario, with an injected-error body), yet the checkout flow still runs
the payment and notification steps and the handler returns HTTP 200 with
order status completed — no abort and no 409 surfaces. -/
theorem checkout_inventory_injected_counterexample :
    isInjectedErrorBody oosBody = true ∧
    (findScenario ERROR_SCENARIOS "inventory-service" "out_of_stock").map
      (fun sc => sc.status_code) = some 409 ∧
    checkout_handler ERROR_SCENARIOS (fun _ => 1) true
      ⟨HttpResult.response 409 oosBody, HttpResult.response 200 paymentOkBody,
        HttpResult.response 200 notifyOkBody⟩ =
    ([Step.reserveInventory, Step.processPayment, Step.sendNotification],
      ⟨200, true, some "completed", none⟩) :=
  ⟨by decide, by decide, rfl⟩

/-- C1 as amended: when the order-service itself injects nothing, an
inventory reservation that raises a transport failure aborts the checkout —
payment and notification never run and the handler returns a failure with
the generic status 500 carrying the exception name; but when
inventory-service merely responds (with any status, including an injected
error), `call_service` returns the decoded body without raising, and the
flow continues through payment and notification to a 200 completed
response. -/
theorem checkout_inventory_failure_amended (draws : ℕ → ℚ) (cls : String)
    (env : CheckoutEnv)
    (hinj : get_error_for_service ERROR_SCENARIOS draws "order-service" "/checkout" = none) :
    (env.inventoryResult = HttpResult.requestException cls →
      checkout_handler ERROR_SCENARIOS draws true env =
        ([Step.reserveInventory], ⟨500, false, none, some cls⟩)) ∧
    (∀ istatus ibody pstatus pbody,
      env.inventoryResult = HttpResult.response istatus ibody →
      env.paymentResult = HttpResult.response pstatus pbody →
      checkout_handler ERROR_SCENARIOS draws true env =
        ([Step.reserveInventory, Step.processPayment, Step.sendNotification],
          ⟨200, true, some "completed", none⟩)) := by
  have hm : maybe_raise_error ERROR_SCENARIOS draws "order-service" "/checkout" =
      Except.ok () := by
    simp [maybe_raise_error, hinj]
  constructor
  · intro hi
    simp [checkout_handler, checkout_run, hm, hi, call_service, url_inventory,
      pyStatusCode, pyErrorType]
  · intro istatus ibody pstatus pbody hi hp
    cases hn : env.notifyResult <;>
      simp [checkout_handler, checkout_run, hm, hi, hp, hn, call_service,
        url_inventory, url_payment, url_notification]

/-- Witness for C1 as amended: with no self-injection, a connection error
during inventory reservation ends the checkout after the first step with a
500 failure naming the exception. -/
theorem checkout_inventory_failure_amended_witness :
    get_error_for_service ERROR_SCENARIOS (fun _ => 1) "order-service" "/checkout" = none ∧
    checkout_handler ERROR_SCENARIOS (fun _ => 1) true
      ⟨HttpResult.requestException "ConnectionError", HttpResult.response 200 paymentOkBody,
        HttpResult.response 200 notifyOkBody⟩ =
      ([Step.reserveInventory], ⟨500, false, none, some "ConnectionError"⟩) := by
  refine ⟨by decide, ?_⟩
  exact (checkout_inventory_failure_amended (fun _ => 1) "ConnectionError"
    ⟨HttpResult.requestException "ConnectionError", HttpResult.response 200 paymentOkBody,
      HttpResult.response 200 notifyOkBody⟩ (by decide)).1 rfl

/-- C6: when inventory reservation and payment both respond successfully and
the order-service injects nothing itself, the checkout returns HTTP 200 with
order status completed whatever the notification step does — any
notification failure (transport exception included) is caught and only
logged, never failing the order. -/
theorem checkout_notify_failure_swallowed (draws : ℕ → ℚ) (ibody pbody : JsonBody)
    (notifyResult : HttpResult)
    (hinj : get_error_for_service ERROR_SCENARIOS draws "order-service" "/checkout" = none) :
    checkout_handler ERROR_SCENARIOS draws true
      ⟨HttpResult.response 200 ibody, HttpResult.response 200 pbody, notifyResult⟩ =
      ([Step.reserveInventory, Step.processPayment, Step.sendNotification],
        ⟨200, true, some "completed", none⟩) := by
  have hm : maybe_raise_error ERROR_SCENARIOS draws "order-service" "/checkout" =
      Except.ok () := by
    simp [maybe_raise_error, hinj]
  cases hn : notifyResult <;>
    simp [checkout_handler, checkout_run, hm, hn, call_service,
      url_inventory, url_payment, url_notification]

/-- Witness for C6: a forced connection error in the notification step
leaves the checkout a 200 completed success. -/
theorem checkout_notify_failure_swallowed_witness :
    get_error_for_service ERROR_SCENARIOS (fun _ => 1) "order-service" "/checkout" = none ∧
    checkout_handler ERROR_SCENARIOS (fun _ => 1) true
      ⟨HttpResult.response 200 paymentOkBody, HttpResult.response 200 paymentOkBody,
        HttpResult.requestException "ConnectionError"⟩ =
      ([Step.reserveInventory, Step.processPayment, Step.sendNotification],
        ⟨200, true, some "completed", none⟩) := by
  refine ⟨by decide, ?_⟩
  exact checkout_notify_failure_swallowed (fun _ => 1) paymentOkBody paymentOkBody
    (HttpResult.requestException "ConnectionError") (by decide)

/-- C9: the configured catalog reproduces the literal fault table of the
specification — payment_declined 0.06/402, fraud_detected 0.02/403,
gateway_timeout 0.03/504, out_of_stock 0.08/409, invalid_token 0.05/401. -/
theorem catalog_matches_spec_table :
    (findScenario ERROR_SCENARIOS "payment-service" "payment_declined").map
      (fun sc => (sc.rate, sc.status_code)) = some (0.06, 402) ∧
    (findScenario ERROR_SCENARIOS "payment-service" "fraud_detected").map
      (fun sc => (sc.rate, sc.status_code)) = some (0.02, 403) ∧
    (findScenario ERROR_SCENARIOS "payment-service" "gateway_timeout").map
      (fun sc => (sc.rate, sc.status_code)) = some (0.03, 504) ∧
    (findScenario ERROR_SCENARIOS "inventory-service" "out_of_stock").map
      (fun sc => (sc.rate, sc.status_code)) = some (0.08, 409) ∧
    (findScenario ERROR_SCENARIOS "auth-service" "invalid_token").map
      (fun sc => (sc.rate, sc.status_code)) = some (0.05, 401) := by
  have h6 : (0.06 : ℚ) = mkRat 6 100 := by
    rw [Rat.mkRat_eq_divInt]; norm_num [Rat.divInt_eq_div]
  have h2 : (0.02 : ℚ) = mkRat 2 100 := by
    rw [Rat.mkRat_eq_divInt]; norm_num [Rat.divInt_eq_div]
  have h3 : (0.03 : ℚ) = mkRat 3 100 := by
    rw [Rat.mkRat_eq_divInt]; norm_num [Rat.divInt_eq_div]
  have h8 : (0.08 : ℚ) = mkRat 8 100 := by
    rw [Rat.mkRat_eq_divInt]; norm_num [Rat.divInt_eq_div]
  have h5 : (0.05 : ℚ) = mkRat 5 100 := by
    rw [Rat.mkRat_eq_divInt]; norm_num [Rat.divInt_eq_div]
  rw [h6, h2, h3, h8, h5]
  decide
